import Mathlib

/-!
Shallow embedding of `src/e57importer.py` (ASTM E57 container importer).

All numpy `uint64` arithmetic is modelled on `Nat` with explicit wrap at
`2 ^ 64` (`sub64`, `% U64`).  A file is modelled as a function from physical
byte offset to byte value.  Raised Python exceptions become `Except` errors
carrying exactly the data the raise site supplies (a message string).
-/

/-- Wrap modulus of numpy uint64 arithmetic. -/
def U64 : Nat := 2 ^ 64

/-- Wrapping uint64 subtraction: `a - b` modulo `2 ^ 64` (for `a < 2 ^ 64`). -/
def sub64 (a b : Nat) : Nat := (a + (U64 - b % U64)) % U64

/-- Module constant `E57_PAGE_CRC = 4` (line 37). -/
def E57_PAGE_CRC : Nat := 4

/-- Module constant `E57_STD_PAGE_SIZE = 1024` (line 38). -/
def E57_STD_PAGE_SIZE : Nat := 1024

/-- Module constant `E57_COMPRESSED_VECTOR_SECTION = 1` (line 39). -/
def E57_COMPRESSED_VECTOR_SECTION : Nat := 1

/-- Module constant `E57_INDEX_PACKET = 0` (line 40). -/
def E57_INDEX_PACKET : Nat := 0

/-- Module constant `E57_DATA_PACKET = 1` (line 41). -/
def E57_DATA_PACKET : Nat := 1

/-- Module constant `E57_DEBUG = True` (line 34). -/
def E57_DEBUG : Bool := true

/-- numpy uint64 modulo: `x % 0` evaluates to `0` (with a RuntimeWarning)
rather than raising, unlike plain Python integers. -/
def npMod (a b : Nat) : Nat := if b = 0 then 0 else a % b

/-- Python `ValueError(msg)` as raised by the source; it carries only the
message string.  The spec's taxonomy names `FormatError`, `SizeError` and
`SectionTypeError` correspond to the distinct messages below. -/
inductive E57Error where
  | valueError : String → E57Error
deriving DecidableEq

/-- The class-level state of `SegmentReader` (lines 160-161): `PageSize` and
`PageContent` are attributes of the class itself, shared by every instance in
the process, mutated by the classmethod `setPageSize`. -/
structure ReaderClassState where
  PageSize : Nat
  PageContent : Nat
deriving DecidableEq

/-- Initial class state: `PageSize = E57_STD_PAGE_SIZE`,
`PageContent = E57_STD_PAGE_SIZE - E57_PAGE_CRC` (lines 160-161). -/
def initReaderClassState : ReaderClassState :=
  ⟨E57_STD_PAGE_SIZE, E57_STD_PAGE_SIZE - E57_PAGE_CRC⟩

/-- Classmethod `SegmentReader.setPageSize` (lines 163-166): overwrites the
class attributes `PageSize` and `PageContent = PageSize - E57_PAGE_CRC`. -/
def setPageSize (s : ReaderClassState) (ps : Nat) : ReaderClassState :=
  ⟨ps, sub64 ps E57_PAGE_CRC⟩

/-- Decoded E57 file header record (dtype of `E57Header.setType`,
lines 245-252). -/
structure E57HeaderRec where
  fileSignature : String
  majorVersion : Nat
  minorVersion : Nat
  filePhysicalLength : Nat
  xmlPhysicalOffset : Nat
  xmlLogicalLength : Nat
  pageSize : Nat
deriving DecidableEq

/-- Method `E57.readHeader` (lines 53-74): configures the class-level page
geometry via `SegmentReader.setPageSize(self.pageSize)` and then, only when
`checkfile` is set, checks the signature (raising
`ValueError('No E57 file format.')`) and the page alignment of
`filePhysicalLength` (raising `ValueError('File size is not compliant.')`).
The first component is the check outcome, the second the class state after
the call (the geometry is set before the checks run). -/
def readHeader (s : ReaderClassState) (checkfile : Bool) (h : E57HeaderRec) :
    Except E57Error Unit × ReaderClassState :=
  let s2 := setPageSize s h.pageSize
  (if checkfile then
      if h.fileSignature = "ASTM-E57" then
        if npMod h.filePhysicalLength h.pageSize = 0 then Except.ok ()
        else Except.error (E57Error.valueError "File size is not compliant.")
      else Except.error (E57Error.valueError "No E57 file format.")
    else Except.ok (), s2)

/-- The `while (pages[-1] >= self.PageContent)` loop of
`SegmentReader.__init__` (lines 194-197), with `x` the running value of
`pages[-1]` and `init` the list of elements before it.  Each iteration
overwrites the current last element with `PageContent` and appends
`pages[-1] - PageContent + E57_PAGE_CRC` (uint64 arithmetic).  `fuel`
bounds the iteration count; `none` models a loop that does not terminate
within the given fuel (for page sizes of at most 8 the loop never exits). -/
def pagesFix (pageContent : Nat) : Nat → Nat → List Nat → Option (List Nat)
  | 0, x, init =>
      if x < pageContent then some (init ++ [x]) else none
  | fuel + 1, x, init =>
      if x < pageContent then some (init ++ [x])
      else pagesFix pageContent fuel ((x - pageContent + E57_PAGE_CRC) % U64)
            (init ++ [pageContent])

/-- Chunk-length computation of `SegmentReader.__init__` (lines 178-197),
performed before any file I/O: the list `pages` of payload lengths to read.
`start = offset % PageSize`, `first = PageContent - start` (uint64 wrap),
`diff = length - first` (uint64 wrap); if `first >= length` a single chunk
of the whole `length` is emitted, otherwise `diff // PageSize` full pages of
`PageContent` bytes follow `first`, the remainder `diff % PageSize` is
appended, corrected by `(len(pages) - 2) * E57_PAGE_CRC`, and the while loop
`pagesFix` splits an oversized last chunk. -/
def segmentPages (pageSize pageContent offset length : Nat) :
    Option (List Nat) :=
  let start := npMod offset pageSize
  let first := sub64 pageContent start
  if length ≤ first then some [length]
  else
    let diff := sub64 length first
    let full := diff / pageSize
    let modulo := diff % pageSize
    let lastv := (modulo + full * E57_PAGE_CRC) % U64
    pagesFix pageContent (lastv + 1) lastv (first :: List.replicate full pageContent)

/-- One `np.fromfile(..., count=page, offset=offset)` call: the `len` bytes
of the file `f` starting at physical offset `off`. -/
def readChunk (f : Nat → Nat) (off len : Nat) : List Nat :=
  (List.range len).map (fun i => f (off + i))

/-- The read loop of `SegmentReader.__init__` (lines 205-217): for each
chunk length `p`, only when `p > 0` and only when the module flag
`E57_DEBUG` is set, the bytes are read and the physical offset advanced past
the chunk and its checksum trailer (`offset = offset + page + E57_PAGE_CRC`,
uint64).  When the guard fails nothing is read and the offset is not
advanced. -/
def readPages (debug : Bool) (f : Nat → Nat) : List Nat → Nat → List Nat
  | [], _ => []
  | p :: ps, off =>
      if 0 < p then
        if debug then
          readChunk f off p ++ readPages debug f ps ((off + p + E57_PAGE_CRC) % U64)
        else readPages debug f ps off
      else readPages debug f ps off

/-- Whole content produced by one `SegmentReader` construction for a request
of `length` bytes at logical/physical `offset`: the chunk lengths from
`segmentPages` followed by the guarded read loop.  `none` models the
nonterminating while loop. -/
def segmentRead (debug : Bool) (f : Nat → Nat)
    (pageSize pageContent offset length : Nat) : Option (List Nat) :=
  (segmentPages pageSize pageContent offset length).map
    (fun pages => readPages debug f pages offset)

/-- A byte-range read through a fresh `SegmentReader(filename, offset, count)`
with item size 1 (dtype `np.byte`): the only state consulted is the
class-level page geometry, and constructing the reader does not modify it
(`setPageSize` is called from `E57.readHeader` alone).  Returns the bytes and
the class state after the call. -/
def doRead (f : Nat → Nat) (s : ReaderClassState) (offset count : Nat) :
    Option (List Nat) × ReaderClassState :=
  (segmentRead E57_DEBUG f s.PageSize s.PageContent offset count, s)

/-- Decoded record of `E57DataPacketHeader.setType` (lines 271-275). -/
structure DataPacketHeaderRec where
  packetType : Nat
  packetFlags : Nat
  packetLogicalLengthMinus1 : Nat
  bytestreamCount : Nat
deriving DecidableEq

/-- Little-endian uint16 from two bytes. -/
def decodeU16 (b0 b1 : Nat) : Nat := b0 % 256 + 256 * (b1 % 256)

/-- Interpretation of 6 raw bytes as the numpy structured dtype of
`E57DataPacketHeader` (uint8, uint8, uint16, uint16, little-endian). -/
def decodeDataPacketHeader (bytes : List Nat) : DataPacketHeaderRec :=
  { packetType := bytes.getD 0 0
    packetFlags := bytes.getD 1 0
    packetLogicalLengthMinus1 := decodeU16 (bytes.getD 2 0) (bytes.getD 3 0)
    bytestreamCount := decodeU16 (bytes.getD 4 0) (bytes.getD 5 0) }

/-- Method `E57DataPacketHeader.validate` (lines 277-280): raises
`ValueError('No data packet.')` when `packetType` is not `E57_DATA_PACKET`,
else returns `True`.  It is called unconditionally from
`SegmentReader.__init__` (line 220); no validate flag reaches it. -/
def dataPacketValidate (h : DataPacketHeaderRec) : Except E57Error Bool :=
  if h.packetType = E57_DATA_PACKET then Except.ok true
  else Except.error (E57Error.valueError "No data packet.")

/-- Construction of `E57DataPacketHeader(filename, offset)`: a segment read
of the 6-byte dtype at `offset` through the page translator, decoded and
validated.  `none` models the nonterminating chunk loop. -/
def e57ReadDataPacketHeader (f : Nat → Nat) (s : ReaderClassState)
    (offset : Nat) : Option (Except E57Error DataPacketHeaderRec) :=
  (segmentRead E57_DEBUG f s.PageSize s.PageContent offset 6).map
    (fun bytes =>
      let h := decodeDataPacketHeader bytes
      match dataPacketValidate h with
      | Except.error e => Except.error e
      | Except.ok _ => Except.ok h)

/-- Method `E57.readDataPacketHeader` (lines 100-101): forwards to the
decoder without consulting the container's `checkfile` flag. -/
def e57FacadeReadDataPacketHeader (checkfile : Bool) (f : Nat → Nat)
    (s : ReaderClassState) (offset : Nat) :
    Option (Except E57Error DataPacketHeaderRec) :=
  e57ReadDataPacketHeader f s offset

/-- Decoded record of `E57CompressedVectorSectionHeader.setType`
(lines 257-262), reserved padding omitted. -/
structure CVSectionHeaderRec where
  sectionId : Nat
  sectionLogicalLength : Nat
  dataPhysicalOffset : Nat
  indexPhysicalOffset : Nat
deriving DecidableEq

/-- One header read performed by the facade, tagged with its kind and the
physical offset it is issued at. -/
inductive HeaderRead where
  | sectionHeader : Nat → HeaderRead
  | dataPacket : Nat → HeaderRead
  | indexPacket : Nat → HeaderRead
deriving DecidableEq

/-- The ordered header reads of `E57.extractCompressedVector` for one point
stream (lines 141-146): the section header at the descriptor's `fileOffset`
`pos`, the data packet header at `cv['dataPhysicalOffset']`, then
`offset = cv['dataPhysicalOffset']`, `offset += dh['packetLogicalLengthMinus1']`
and the index packet header at that offset (uint64 addition). -/
def extractCompressedVectorReads (pos : Nat) (cv : CVSectionHeaderRec)
    (dh : DataPacketHeaderRec) : List HeaderRead :=
  [HeaderRead.sectionHeader pos,
   HeaderRead.dataPacket cv.dataPhysicalOffset,
   HeaderRead.indexPacket
     ((cv.dataPhysicalOffset + dh.packetLogicalLengthMinus1) % U64)]

/-- Python bitwise `&` on arbitrary-precision integers (two's complement on
negatives). -/
def pyAnd : Int → Int → Int
  | Int.ofNat m, Int.ofNat n => Int.ofNat (Nat.land m n)
  | Int.ofNat m, Int.negSucc n => Int.ofNat (Nat.ldiff m n)
  | Int.negSucc m, Int.ofNat n => Int.ofNat (Nat.ldiff n m)
  | Int.negSucc m, Int.negSucc n => Int.negSucc (Nat.lor m n)

/-- Method `E57.bitsNeeded(maximum, minimum)` (lines 106-123): the cascade of
mask tests on `state = maximum - minimum`.  The final `elif` repeats the
`0x2` mask (so the branch returning 1 is unreachable) and the fall-through
returns Python `None`, modelled as `none`. -/
def bitsNeeded (maximum minimum : Int) : Option Int :=
  let state := maximum - minimum
  if 0 < pyAnd 0xFFFFFFFF00000000 state then some 64
  else if 0 < pyAnd 0xFFFF0000 state then some 32
  else if 0 < pyAnd 0xFF00 state then some 16
  else if 0 < pyAnd 0xF0 state then some 8
  else if 0 < pyAnd 0xC state then some 4
  else if 0 < pyAnd 0x2 state then some 2
  else if 0 < pyAnd 0x2 state then some 1
  else none

/-- The Python values relevant to `SegmentReader.__getitem__`: numpy scalars,
numpy arrays, and the bound-method object `self.isSingle`.  Python
truthiness of a bound method is always `True`. -/
inductive PyValue where
  | int : Int → PyValue
  | arr : List Int → PyValue
  | boundMethod : PyValue
deriving DecidableEq

/-- Python truthiness (`bool(...)`) of the modelled values; a bound method
object is always truthy. -/
def pyTruthy : PyValue → Bool
  | PyValue.int n => n != 0
  | PyValue.arr xs => !xs.isEmpty
  | PyValue.boundMethod => true

/-- Method `SegmentReader.isSingle` (lines 231-232): `count == 1`. -/
def isSingle (count : Nat) : Bool := count == 1

/-- Method `SegmentReader.__getitem__` (lines 234-238).  The condition is
written `if self.isSingle:`, which tests the bound-method object itself for
truthiness instead of calling it, so the first branch is always taken:
`result[key][0]` (the field column at `key`, first record).  The `count`
argument is the reader's record count; `result` maps a field key to its
column of decoded values. -/
def segGetItem (count : Nat) (result : Nat → List Int) (key : Nat) : PyValue :=
  if pyTruthy PyValue.boundMethod then PyValue.int ((result key).getD 0 0)
  else PyValue.arr (result key)

/-- Claim C1: the spec requires the chunk payload lengths computed by
`SegmentReader.__init__` to sum to exactly the requested logical length for
every page geometry with `pageSize > 4`.  The code violates this: with
`pageSize = 16` (`pageContent = 12`), `offset = 0`, `length = 24`, the
oversized-last-chunk while loop appends `last - pageContent + E57_PAGE_CRC`,
inflating the total by the checksum size, yielding chunks `[12, 12, 4]`
whose sum is 28, not 24.  On the spec's own §8 example (`pageSize = 1024`,
`offset = 48`, `length = 2000`) the loop is not entered and the sum is
correct, confirming the invariant fails only through the while-loop path. -/
theorem c1_chunk_sum_bug :
    segmentPages 16 12 0 24 = some [12, 12, 4] ∧
    List.sum [12, 12, 4] = 28 ∧ (28 : Nat) ≠ 24 ∧
    segmentPages 1024 1020 48 2000 = some [972, 1020, 8] ∧
    List.sum [972, 1020, 8] = 2000 := by decide

/-- Claim C2: the spec's contract says `computeBitWidth` returns
`ceil(log2(maximum - minimum + 1))`, with `computeBitWidth(x, x) = 0`,
`computeBitWidth(0, 255) = 8` and `computeBitWidth(0, 256) = 9`.  The
source's `E57.bitsNeeded` instead returns Python `None` when the extent is 0
(all mask tests fail and control falls off the end) and `16` for extent 256
(the `0xFF00` mask test fires), so the claim fails on the code exactly as
the spec's own design notes warn. -/
theorem c2_bitsNeeded_defect :
    bitsNeeded 0 0 = none ∧
    bitsNeeded 255 0 = some 8 ∧
    bitsNeeded 256 0 = some 16 ∧ bitsNeeded 256 0 ≠ some 9 := by decide

/-- Claim C3 counterexample: for a section header with
`dataPhysicalOffset = 100` and a data packet header with
`packetLogicalLengthMinus1 = 7`, `E57.extractCompressedVector` reads the
index packet header at physical offset `100 + 7 = 107`, and no read at the
claimed offset `100 + (7 + 1) = 108` occurs. -/
theorem c3_index_offset_counterexample :
    extractCompressedVectorReads 50 ⟨1, 64, 100, 132⟩ ⟨1, 0, 7, 1⟩ =
      [HeaderRead.sectionHeader 50, HeaderRead.dataPacket 100,
       HeaderRead.indexPacket 107] ∧
    HeaderRead.indexPacket (100 + (7 + 1)) ∉
      extractCompressedVectorReads 50 ⟨1, 64, 100, 132⟩ ⟨1, 0, 7, 1⟩ := by
  decide

/-- Claim C3 amended: after the section header and the first data packet
header, the index packet header is read at
`dataPhysicalOffset + packetLogicalLengthMinus1` (uint64 addition), i.e. one
byte before the position the claim states. -/
theorem c3_index_offset_amended (pos : Nat) (cv : CVSectionHeaderRec)
    (dh : DataPacketHeaderRec) :
    (extractCompressedVectorReads pos cv dh).get? 2 =
      some (HeaderRead.indexPacket
        ((cv.dataPhysicalOffset + dh.packetLogicalLengthMinus1) % U64)) := rfl

/-- Claim C4: with validation enabled, a header whose signature is not
"ASTM-E57" fails with the format error (`ValueError('No E57 file format.')`,
the spec's `FormatError`); a header with the correct signature whose
`filePhysicalLength` is not a multiple of `pageSize` fails with the size
error (`ValueError('File size is not compliant.')`, the spec's `SizeError`);
with validation disabled neither check runs and the call succeeds. -/
theorem c4_header_checks (s : ReaderClassState) (h : E57HeaderRec) :
    (h.fileSignature ≠ "ASTM-E57" →
      (readHeader s true h).1 =
        Except.error (E57Error.valueError "No E57 file format.")) ∧
    (h.fileSignature = "ASTM-E57" → 0 < h.pageSize →
      h.filePhysicalLength % h.pageSize ≠ 0 →
      (readHeader s true h).1 =
        Except.error (E57Error.valueError "File size is not compliant.")) ∧
    (readHeader s false h).1 = Except.ok () := by
  refine ⟨fun hsig => ?_, fun hsig hpos hmod => ?_, rfl⟩
  · simp [readHeader, hsig]
  · simp [readHeader, npMod, hsig, hmod, Nat.pos_iff_ne_zero.mp hpos]

/-- Claim C4 witness: the three branches of `c4_header_checks` evaluated on
concrete headers. -/
theorem c4_header_checks_witness :
    (("XXXX-E57" : String) ≠ "ASTM-E57") ∧
    (readHeader initReaderClassState true
        ⟨"XXXX-E57", 1, 0, 2048, 48, 100, 1024⟩).1 =
      Except.error (E57Error.valueError "No E57 file format.") ∧
    ((1000 : Nat) % 1024 ≠ 0) ∧
    (readHeader initReaderClassState true
        ⟨"ASTM-E57", 1, 0, 1000, 48, 100, 1024⟩).1 =
      Except.error (E57Error.valueError "File size is not compliant.") ∧
    (readHeader initReaderClassState false
        ⟨"XXXX-E57", 1, 0, 1000, 48, 100, 1024⟩).1 = Except.ok () :=
  ⟨by decide,
   (c4_header_checks initReaderClassState
      ⟨"XXXX-E57", 1, 0, 2048, 48, 100, 1024⟩).1 (by decide),
   by decide,
   (c4_header_checks initReaderClassState
      ⟨"ASTM-E57", 1, 0, 1000, 48, 100, 1024⟩).2.1 rfl (by decide) (by decide),
   (c4_header_checks initReaderClassState
      ⟨"XXXX-E57", 1, 0, 1000, 48, 100, 1024⟩).2.2⟩

/-- Claim C5 counterexample: the error raised by
`E57DataPacketHeader.validate` is `ValueError('No data packet.')` carrying
only that message.  Reading a bad packet at offset 10 and at offset 20 of a
file of constant byte 7 produces the identical error value, and the same
error again when the offending byte is 9 instead of 7 — so the raised error
carries neither the offending offset nor the actual value (nor the expected
tag), contrary to the claim. -/
theorem c5_error_payload_counterexample :
    e57ReadDataPacketHeader (fun x => 7) initReaderClassState 10 =
      some (Except.error (E57Error.valueError "No data packet.")) ∧
    e57ReadDataPacketHeader (fun x => 7) initReaderClassState 20 =
      some (Except.error (E57Error.valueError "No data packet.")) ∧
    (10 : Nat) ≠ 20 ∧
    e57ReadDataPacketHeader (fun x => 9) initReaderClassState 10 =
      some (Except.error (E57Error.valueError "No data packet.")) :=
  ⟨rfl, rfl, by decide, rfl⟩

/-- Claim C5 amended: reading a `DataPacketHeader` whose decoded
`packetType` byte is not `E57_DATA_PACKET` raises
`ValueError('No data packet.')` (carrying only that message), and the check
runs regardless of the container's `checkfile` flag, which never reaches the
decoder. -/
theorem c5_tag_check (f : Nat → Nat) (s : ReaderClassState) (offset : Nat)
    (bytes : List Nat)
    (hread : segmentRead E57_DEBUG f s.PageSize s.PageContent offset 6 =
      some bytes)
    (htag : (decodeDataPacketHeader bytes).packetType ≠ E57_DATA_PACKET) :
    e57ReadDataPacketHeader f s offset =
      some (Except.error (E57Error.valueError "No data packet.")) ∧
    ∀ c : Bool, e57FacadeReadDataPacketHeader c f s offset =
      e57ReadDataPacketHeader f s offset := by
  constructor
  · unfold e57ReadDataPacketHeader
    rw [hread]
    simp [dataPacketValidate, htag]
  · intro c
    rfl

/-- Claim C5 witness: `c5_tag_check` applied at a concrete file of constant
byte 7 and offset 5. -/
theorem c5_tag_check_witness :
    segmentRead E57_DEBUG (fun x => 7) initReaderClassState.PageSize
        initReaderClassState.PageContent 5 6 = some [7, 7, 7, 7, 7, 7] ∧
    (decodeDataPacketHeader [7, 7, 7, 7, 7, 7]).packetType ≠ E57_DATA_PACKET ∧
    (e57ReadDataPacketHeader (fun x => 7) initReaderClassState 5 =
      some (Except.error (E57Error.valueError "No data packet.")) ∧
    ∀ c : Bool,
      e57FacadeReadDataPacketHeader c (fun x => 7) initReaderClassState 5 =
        e57ReadDataPacketHeader (fun x => 7) initReaderClassState 5) :=
  ⟨rfl, by decide,
   c5_tag_check (fun x => 7) initReaderClassState 5 [7, 7, 7, 7, 7, 7] rfl
     (by decide)⟩

/-- Claim C6: within one open container (fixed class-level page geometry),
reading a logical range twice through fresh `SegmentReader` constructions
yields identical bytes: a read leaves the class state unchanged, and a
second identical read returns the same result. -/
theorem c6_reread_idempotent (f : Nat → Nat) (s : ReaderClassState)
    (offset count : Nat) :
    (doRead f ((doRead f s offset count).2) offset count).1 =
      (doRead f s offset count).1 ∧
    (doRead f s offset count).2 = s :=
  ⟨rfl, rfl⟩

/-- Claim C7: the spec says `computeBitWidth` is non-decreasing in
`maximum - minimum`.  The source's `E57.bitsNeeded` violates this: the valid
range `[0, 0]` yields no integer at all (`None`), and for the valid ranges
`[0, 255]` and `[0, 2^64 + 2]` the extents satisfy `255 ≤ 2^64 + 2` while
the results are `8` and `2` — every mask test fails on `2^64 + 2` except the
`0x2` one, so the wider range gets the smaller bit width. -/
theorem c7_bitsNeeded_not_monotone :
    bitsNeeded 0 0 = none ∧
    ((255 : Int) - 0 ≤ 18446744073709551618 - 0) ∧
    bitsNeeded 255 0 = some 8 ∧
    bitsNeeded 18446744073709551618 0 = some 2 ∧
    ¬ ((8 : Int) ≤ 2) := by decide

/-- Claim C8: the spec says page geometry is never ambient global state and
that opening one container leaves the geometry observed by another
container's readers unchanged.  In the source the geometry lives in the
class attributes of `SegmentReader`, and `E57.readHeader` overwrites it for
the whole process: after opening container A (`pageSize` 1024) and then
container B (`pageSize` 2048), a reader working on A observes page size
2048, and the chunking of A's own requests changes (a 2000-byte read at
offset 0 is chunked `[2000]` under the leaked 2048 geometry instead of
`[1020, 980]` under A's). -/
theorem c8_page_geometry_global :
    (readHeader (readHeader initReaderClassState true
        ⟨"ASTM-E57", 1, 0, 2048, 48, 100, 1024⟩).2 true
        ⟨"ASTM-E57", 1, 0, 4096, 48, 100, 2048⟩).2.PageSize = 2048 ∧
    (2048 : Nat) ≠ 1024 ∧
    segmentPages 2048 2044 0 2000 ≠ segmentPages 1024 1020 0 2000 := by decide

/-- Helper for claim C9: with the debug flag cleared, the read loop of
`SegmentReader.__init__` reads nothing for any chunk list. -/
theorem readPages_debug_false (f : Nat → Nat) :
    ∀ (l : List Nat) (off : Nat), readPages false f l off = [] := by
  intro l
  induction l with
  | nil => intro off; rfl
  | cons p ps ih =>
      intro off
      unfold readPages
      split <;> simp [ih]

/-- Claim C9: every byte read and physical-cursor advance in
`SegmentReader.__init__` sits under `if E57_DEBUG:`.  With the flag false
the constructed result buffer is empty for every offset and count (whenever
the chunk computation terminates), and the outcome does not depend on the
file contents at all — no bytes are read. -/
theorem c9_debug_guard (f g : Nat → Nat)
    (pageSize pageContent offset count : Nat) :
    segmentRead false f pageSize pageContent offset count =
      (segmentPages pageSize pageContent offset count).map
        (fun pages => ([] : List Nat)) ∧
    segmentRead false f pageSize pageContent offset count =
      segmentRead false g pageSize pageContent offset count := by
  unfold segmentRead
  cases segmentPages pageSize pageContent offset count with
  | none => exact ⟨rfl, rfl⟩
  | some pages => simp [readPages_debug_false]

/-- Claim C10: `SegmentReader.__getitem__` tests the bound method
`self.isSingle` for truthiness instead of calling it, so the single-record
branch is always taken: for any record count greater than 1 the result is
still `result[key][0]`, `isSingle` itself would have returned `False`, and
the lookup is indistinguishable from a `count = 1` lookup. -/
theorem c10_getitem_single (count : Nat) (result : Nat → List Int)
    (key : Nat) (hc : 1 < count) :
    segGetItem count result key = PyValue.int ((result key).getD 0 0) ∧
    isSingle count = false ∧
    segGetItem count result key = segGetItem 1 result key := by
  refine ⟨rfl, ?_, rfl⟩
  have hne : count ≠ 1 := by omega
  simp [isSingle, hne]

/-- Claim C10 witness: `c10_getitem_single` applied with count 3 and the
column `[5, 6, 7]` at every key. -/
theorem c10_getitem_single_witness :
    segGetItem 3 (fun k => [5, 6, 7]) 0 = PyValue.int 5 ∧
    isSingle 3 = false ∧
    segGetItem 3 (fun k => [5, 6, 7]) 0 = segGetItem 1 (fun k => [5, 6, 7]) 0 :=
  c10_getitem_single 3 (fun k => [5, 6, 7]) 0 (by decide)
